import Mathlib

/-!
Verification of the VAPI-to-Square webhook connector.

The repository contains three variants of the same serverless handler:
  * variant 1: the express handler registered at the root path
    (src/api/index.js, first section, lines 25-160),
  * variant 2: the express handler registered at the path /api/index.js
    (src/api/index.js, second section, lines 188-312),
  * the direct handler (src/unnamed/part_000), which checks the HTTP
    method, normalizes the phone number, and hard-codes the bearer token.

The shallow embedding below models each handler as a pure function from
the inbound request, the configured bearer token, and the three provider
responses (search customer, create customer, create booking) to the HTTP
response it produces, together with the list of upstream calls it makes.
JavaScript truthiness on optional strings, the template-literal rendering
of undefined, and the runtime TypeError raised when indexing an empty
errors array or dereferencing an absent phone are modelled explicitly.
-/

deriving instance DecidableEq for Except

namespace SquareWebhook

/-- JavaScript falsiness of a value that is either a string or
null/undefined: absent values and the empty string are falsy. -/
def jsFalsy : Option String → Bool
  | none => true
  | some s => s == ""

/-- Rendering of a possibly-undefined string inside a JS template
literal: undefined renders as the text undefined. -/
def jsRender : Option String → String
  | none => "undefined"
  | some s => s

/-- Models the expression `toolCallId || \x27test-error\x27` on the
validation path: JS falls back to the sentinel when the value is falsy
(absent or the empty string). -/
def jsOrSentinel : Option String → String
  | none => "test-error"
  | some s => if s == "" then "test-error" else s

/-- The `args` object of the inbound VAPI payload. Every field may be
absent (destructuring of an incomplete JSON object). -/
structure Args where
  customer_name : Option String
  customer_phone : Option String
  start_time : Option String
  service_name : Option String
deriving DecidableEq

/-- The inbound VAPI payload: `functionName`, `toolCallId` and `args`
may each be absent. -/
structure Request where
  functionName : Option String
  toolCallId : Option String
  args : Option Args
deriving DecidableEq

/-- `const { customer_name, ... } = args || {}`: field access through the
possibly-absent args object. -/
def reqCustomerName (r : Request) : Option String :=
  match r.args with
  | none => none
  | some a => a.customer_name

def reqCustomerPhone (r : Request) : Option String :=
  match r.args with
  | none => none
  | some a => a.customer_phone

def reqStartTime (r : Request) : Option String :=
  match r.args with
  | none => none
  | some a => a.start_time

def reqServiceName (r : Request) : Option String :=
  match r.args with
  | none => none
  | some a => a.service_name

/-- Provider response to the customer-search call. `errors` holds the
detail strings of the structured error objects when the `errors` field is
present; `customers` holds the (possibly absent) `id` of each returned
customer object when the `customers` field is present. -/
structure SearchResp where
  ok : Bool
  status : Nat
  errors : Option (List String)
  customers : Option (List (Option String))
deriving DecidableEq

/-- Provider response to the create-customer call. `customer` is the
(possibly absent) `id` of the returned customer object when the
`customer` field is present. -/
structure CreateCustomerResp where
  ok : Bool
  status : Nat
  errors : Option (List String)
  customer : Option (Option String)
deriving DecidableEq

/-- Provider response to the create-booking call. `booking` is the
(possibly absent) `id` of the returned booking object when the `booking`
field is present. -/
structure BookingResp where
  ok : Bool
  status : Nat
  errors : Option (List String)
  booking : Option (Option String)
deriving DecidableEq

/-- The three provider responses a single request can consume. -/
structure ProviderResponses where
  search : SearchResp
  create : CreateCustomerResp
  booking : BookingResp
deriving DecidableEq

/-- Message of the TypeError raised by `data.errors[0].detail` when
`data.errors` is a present but empty array: `data.errors` is truthy, the
index yields undefined, and the property access throws. -/
def typeErrorDetailMsg : String :=
  "Cannot read properties of undefined (reading \x27detail\x27)"

/-- Message of the TypeError raised by `phone.replace(...)` when the
phone argument is undefined (direct handler, line 86 of part_000). -/
def typeErrorReplaceMsg : String :=
  "Cannot read properties of undefined (reading \x27replace\x27)"

/-- Models `data.errors ? data.errors[0].detail : fallback`. An absent
`errors` field selects the fallback; a present nonempty array selects the
first detail; a present empty array is truthy, so JS indexes it, and the
resulting property access on undefined throws a TypeError whose message
is what the top-level catch ultimately reports. -/
def errorsBranch : Option (List String) → String → String
  | none, fallback => fallback
  | some [], _ => typeErrorDetailMsg
  | some (d :: _), _ => d

/-- Fuel-driven decimal digit emitter (least significant digit pushed
onto the accumulator), so that concrete keys evaluate by kernel
reduction. -/
def natDigitsAux : Nat → Nat → List Char → List Char
  | 0, _, acc => acc
  | fuel + 1, n, acc =>
    if n < 10 then Char.ofNat (48 + n % 10) :: acc
    else natDigitsAux fuel (n / 10) (Char.ofNat (48 + n % 10) :: acc)

/-- Decimal digits of a natural number, most significant first. Models
the JS template-literal rendering of a non-negative integer such as
`response.status` or `Date.now()`. -/
def natDigits (n : Nat) : List Char :=
  natDigitsAux (n + 1) n []

/-- Decimal rendering of a natural number as a string. -/
def natToString (n : Nat) : String :=
  ⟨natDigits n⟩

/-- Recursive (fuel-free) characterization of the decimal digits, used
only for reasoning; it is proved equal to natDigits below. -/
def digitsOf (n : Nat) : List Char :=
  if n < 10 then [Char.ofNat (48 + n % 10)]
  else digitsOf (n / 10) ++ [Char.ofNat (48 + n % 10)]
termination_by n
decreasing_by exact Nat.div_lt_self (by omega) (by omega)

/-- Value of a decimal digit string read left to right, starting from an
accumulator. -/
def digitsValFrom (a : Nat) (l : List Char) : Nat :=
  l.foldl (fun acc c => 10 * acc + (c.toNat - 48)) a

/-- Variant-1 / direct-handler customer search (response
interpretation): throw on a non-success status, else the id of the first
returned customer, or null. -/
def searchCustomer (resp : SearchResp) : Except String (Option String) :=
  if resp.ok then
    match resp.customers with
    | some (c :: _) => Except.ok c
    | _ => Except.ok none
  else
    Except.error (errorsBranch resp.errors
      ("Search Customer HTTP Error " ++ natToString resp.status ++ " from Square."))

/-- Variant-1 / direct-handler customer creation (response
interpretation): throw on a non-success status, else the id of the
returned customer object, or null. -/
def createCustomer (resp : CreateCustomerResp) : Except String (Option String) :=
  if resp.ok then
    Except.ok resp.customer.join
  else
    Except.error (errorsBranch resp.errors
      ("Create Customer HTTP Error " ++ natToString resp.status ++ " from Square."))

/-- The fixed message used when a success-status booking response carries
no booking object. -/
def unavailableMsg : String :=
  "Square accepted request but returned no booking object (e.g., time slot unavailable)."

/-- Variant-1 / direct-handler booking creation (response
interpretation): throw on a non-success status; on success status, throw
if no booking object is present; else the (possibly absent) booking id. -/
def createSquareBooking (resp : BookingResp) : Except String (Option String) :=
  if resp.ok then
    match resp.booking with
    | none => Except.error (errorsBranch resp.errors unavailableMsg)
    | some bid => Except.ok bid
  else
    Except.error (errorsBranch resp.errors
      ("Booking HTTP Error " ++ natToString resp.status ++ " from Square."))

/-- Variant-2 customer search: no status check at all (src/api/index.js
lines 247-256); any response is interpreted as first customer id or
null. -/
def searchCustomerV2 (resp : SearchResp) : Except String (Option String) :=
  match resp.customers with
  | some (c :: _) => Except.ok c
  | _ => Except.ok none

/-- Variant-2 customer creation: no status check (src/api/index.js lines
259-275). -/
def createCustomerV2 (resp : CreateCustomerResp) : Except String (Option String) :=
  Except.ok resp.customer.join

/-- Variant-2 booking creation: same checks as variant 1 but with the
fallback text HTTP Error ... from Square. (src/api/index.js lines
278-312). -/
def createSquareBookingV2 (resp : BookingResp) : Except String (Option String) :=
  if resp.ok then
    match resp.booking with
    | none => Except.error (errorsBranch resp.errors unavailableMsg)
    | some bid => Except.ok bid
  else
    Except.error (errorsBranch resp.errors
      ("HTTP Error " ++ natToString resp.status ++ " from Square."))

/-- An upstream HTTP call made by the handler. -/
inductive UpstreamCall
  | search
  | createCust
  | createBooking
deriving DecidableEq

/-- One entry of the results array of the outbound envelope. -/
structure ResultEntry where
  toolCallId : Option String
  result : String
deriving DecidableEq

/-- Body of the HTTP response: the JSON result envelope, or plain text
(only the 405 path of the direct handler). -/
inductive RespBody
  | jsonResults (results : List ResultEntry)
  | text (s : String)
deriving DecidableEq

/-- The full observable outcome of one request: HTTP status, body, and
the sequence of upstream calls performed. -/
structure HttpResponse where
  status : Nat
  body : RespBody
  calls : List UpstreamCall
deriving DecidableEq

/-- The fixed configuration-error message of the validation path. -/
def configErrorMsg : String :=
  "Configuration Error: Missing required booking data (name or service) or invalid function name."

/-- The validation guard, identical in all three variants:
`functionName !== \x27schedule_square_appointment\x27 || !customer_name
|| !service_name || !TOKEN`. -/
def validationFails (req : Request) (token : Option String) : Bool :=
  (req.functionName != some "schedule_square_appointment")
    || jsFalsy (reqCustomerName req)
    || jsFalsy (reqServiceName req)
    || jsFalsy token

/-- Customer resolution of variant 1 and the direct handler (with a
present phone): search, create only when the search result is falsy,
throw when the result is still falsy afterwards. Returns the upstream
calls made together with the outcome. -/
def resolveCustomer (p : ProviderResponses) : List UpstreamCall × Except String (Option String) :=
  match searchCustomer p.search with
  | Except.error m => ([UpstreamCall.search], Except.error m)
  | Except.ok cid =>
    if jsFalsy cid then
      match createCustomer p.create with
      | Except.error m => ([UpstreamCall.search, UpstreamCall.createCust], Except.error m)
      | Except.ok cid2 =>
        if jsFalsy cid2 then
          ([UpstreamCall.search, UpstreamCall.createCust],
            Except.error "Failed to secure customer ID for booking.")
        else
          ([UpstreamCall.search, UpstreamCall.createCust], Except.ok cid2)
    else
      ([UpstreamCall.search], Except.ok cid)

/-- Whether the create-customer call is reached: the search succeeded
and its result is falsy (null, or an empty id string). -/
def createAttempted (p : ProviderResponses) : Bool :=
  match searchCustomer p.search with
  | Except.ok cid => jsFalsy cid
  | Except.error _ => false

/-- The try-block of variant 1: resolve the customer, then create the
booking. -/
def orchestrateV1 (p : ProviderResponses) : List UpstreamCall × Except String (Option String) :=
  match resolveCustomer p with
  | (calls, Except.error m) => (calls, Except.error m)
  | (calls, Except.ok _) =>
    match createSquareBooking p.booking with
    | Except.error m => (calls ++ [UpstreamCall.createBooking], Except.error m)
    | Except.ok bid => (calls ++ [UpstreamCall.createBooking], Except.ok bid)

/-- Customer resolution of variant 2 (helpers without status checks). -/
def resolveCustomerV2 (p : ProviderResponses) : List UpstreamCall × Except String (Option String) :=
  match searchCustomerV2 p.search with
  | Except.error m => ([UpstreamCall.search], Except.error m)
  | Except.ok cid =>
    if jsFalsy cid then
      match createCustomerV2 p.create with
      | Except.error m => ([UpstreamCall.search, UpstreamCall.createCust], Except.error m)
      | Except.ok cid2 =>
        if jsFalsy cid2 then
          ([UpstreamCall.search, UpstreamCall.createCust],
            Except.error "Failed to secure customer ID for booking.")
        else
          ([UpstreamCall.search, UpstreamCall.createCust], Except.ok cid2)
    else
      ([UpstreamCall.search], Except.ok cid)

/-- The try-block of variant 2. -/
def orchestrateV2 (p : ProviderResponses) : List UpstreamCall × Except String (Option String) :=
  match resolveCustomerV2 p with
  | (calls, Except.error m) => (calls, Except.error m)
  | (calls, Except.ok _) =>
    match createSquareBookingV2 p.booking with
    | Except.error m => (calls ++ [UpstreamCall.createBooking], Except.error m)
    | Except.ok bid => (calls ++ [UpstreamCall.createBooking], Except.ok bid)

/-- Customer resolution of the direct handler: `phone.replace(...)` is
evaluated while building the search request, so an absent phone throws a
TypeError before any upstream call is made. -/
def resolveCustomerP0 (phone : Option String) (p : ProviderResponses) :
    List UpstreamCall × Except String (Option String) :=
  match phone with
  | none => ([], Except.error typeErrorReplaceMsg)
  | some _ => resolveCustomer p

/-- The try-block of the direct handler. -/
def orchestrateP0 (phone : Option String) (p : ProviderResponses) :
    List UpstreamCall × Except String (Option String) :=
  match resolveCustomerP0 phone p with
  | (calls, Except.error m) => (calls, Except.error m)
  | (calls, Except.ok _) =>
    match createSquareBooking p.booking with
    | Except.error m => (calls ++ [UpstreamCall.createBooking], Except.error m)
    | Except.ok bid => (calls ++ [UpstreamCall.createBooking], Except.ok bid)

/-- Collapse of every maximal run of CR/LF characters to a single space:
models `message.replace(/[\r\n]+/g, \x27 \x27)`. The flag records
whether the previous character belonged to a run. -/
def collapseCRLFAux : Bool → List Char → List Char
  | _, [] => []
  | inRun, c :: cs =>
    if c == '\r' || c == '\n' then
      if inRun then collapseCRLFAux true cs
      else ' ' :: collapseCRLFAux true cs
    else
      c :: collapseCRLFAux false cs

def collapseCRLF (s : String) : String :=
  ⟨collapseCRLFAux false s.data⟩

/-- The ultra-safe failure detail of variant 1 and the direct handler:
`error.message ? error.message.replace(/[\r\n]+/g, \x27 \x27) :
\x27Unknown API Error.\x27`. -/
def sanitizeMessage (m : String) : String :=
  if m == "" then "Unknown API Error." else collapseCRLF m

/-- True when the string contains no carriage return and no line feed. -/
def noCRLF (s : String) : Bool :=
  s.data.all (fun c => !(c == '\r') && !(c == '\n'))

/-- Failure result string of variant 1 and the direct handler. -/
def bookingFailMsg (m : String) : String :=
  "Booking failed. Failure Detail: " ++ sanitizeMessage m

/-- Success result string of variant 1 and the direct handler. -/
def bookingSuccessMsg (bid : Option String) : String :=
  "Booking success. ID: " ++ jsRender bid ++ "."

/-- Variant-2 failure result string: the raw error message is embedded
without any newline collapsing. -/
def v2FailMsg (m : String) : String :=
  "I encountered a system error and could not finalize the booking. Failure Detail: " ++ m

/-- Variant-2 success result string. -/
def v2SuccessMsg (req : Request) (bid : Option String) : String :=
  "Great! I\x27ve confirmed your appointment. Your booking ID is " ++ jsRender bid
    ++ ". The service is " ++ jsRender (reqServiceName req)
    ++ " at " ++ jsRender (reqStartTime req) ++ "."

/-- Variant 1: the express handler at the root path. -/
def handleV1 (req : Request) (token : Option String) (p : ProviderResponses) : HttpResponse :=
  if validationFails req token then
    ⟨200, RespBody.jsonResults [⟨some (jsOrSentinel req.toolCallId), configErrorMsg⟩], []⟩
  else
    match orchestrateV1 p with
    | (calls, Except.error m) =>
      ⟨200, RespBody.jsonResults [⟨req.toolCallId, bookingFailMsg m⟩], calls⟩
    | (calls, Except.ok bid) =>
      ⟨200, RespBody.jsonResults [⟨req.toolCallId, bookingSuccessMsg bid⟩], calls⟩

/-- Variant 2: the express handler at the path /api/index.js. -/
def handleV2 (req : Request) (token : Option String) (p : ProviderResponses) : HttpResponse :=
  if validationFails req token then
    ⟨200, RespBody.jsonResults [⟨some (jsOrSentinel req.toolCallId), configErrorMsg⟩], []⟩
  else
    match orchestrateV2 p with
    | (calls, Except.error m) =>
      ⟨200, RespBody.jsonResults [⟨req.toolCallId, v2FailMsg m⟩], calls⟩
    | (calls, Except.ok bid) =>
      ⟨200, RespBody.jsonResults [⟨req.toolCallId, v2SuccessMsg req bid⟩], calls⟩

/-- The bearer token literal embedded in the direct handler
(src/unnamed/part_000, line 5). -/
def part000Token : String :=
  "EAAAl30wPEDaj_3u4lS9pg7egIdAvo2Mo2gW38tD38O2VYhQ77gaQmJTde8NLDX_"

/-- The direct handler (src/unnamed/part_000): rejects non-POST methods
with a 405 text response, then validates, then orchestrates. -/
def handlePart000 (method : String) (req : Request) (token : Option String)
    (p : ProviderResponses) : HttpResponse :=
  if method != "POST" then
    ⟨405, RespBody.text "Method Not Allowed", []⟩
  else if validationFails req token then
    ⟨200, RespBody.jsonResults [⟨some (jsOrSentinel req.toolCallId), configErrorMsg⟩], []⟩
  else
    match orchestrateP0 (reqCustomerPhone req) p with
    | (calls, Except.error m) =>
      ⟨200, RespBody.jsonResults [⟨req.toolCallId, bookingFailMsg m⟩], calls⟩
    | (calls, Except.ok bid) =>
      ⟨200, RespBody.jsonResults [⟨req.toolCallId, bookingSuccessMsg bid⟩], calls⟩

/-- The phone normalization of the direct handler: strip every character
that is not a digit and not a plus sign. -/
def cleanPhone (s : String) : String :=
  ⟨s.data.filter (fun c => c.isDigit || c == '+')⟩

/-- JS `fullName.split(\x27 \x27)` on the character list: split on every
single space character, keeping empty segments; the result is never
empty. -/
def jsSplitSpace : List Char → List (List Char)
  | [] => [[]]
  | c :: cs =>
    if c == ' ' then [] :: jsSplitSpace cs
    else
      match jsSplitSpace cs with
      | [] => [[c]]
      | t :: ts => (c :: t) :: ts

/-- JS `parts.join(\x27 \x27)`: interleave a single space between the
segments. -/
def joinSpace : List (List Char) → List Char
  | [] => []
  | [x] => x
  | x :: y :: ys => x ++ ' ' :: joinSpace (y :: ys)

/-- The given name computed by createCustomer: `parts[0]`. -/
def customerGivenName (fullName : String) : String :=
  ⟨(jsSplitSpace fullName.data).headD []⟩

/-- The family name computed by createCustomer:
`parts.length > 1 ? parts.slice(1).join(\x27 \x27) : \x27Client\x27`. -/
def customerFamilyName (fullName : String) : String :=
  let parts := jsSplitSpace fullName.data
  if 1 < parts.length then ⟨joinSpace (parts.drop 1)⟩ else "Client"

/-- Modelled from the spec words for claim C8 only: split on whitespace
into (nonempty) tokens. -/
def wsSplit : List Char → List (List Char)
  | [] => [[]]
  | c :: cs =>
    if c.isWhitespace then [] :: wsSplit cs
    else
      match wsSplit cs with
      | [] => [[c]]
      | t :: ts => (c :: t) :: ts

/-- Modelled from the spec words for claim C8 only: the whitespace
tokens of a string. -/
def specTokens (s : String) : List (List Char) :=
  (wsSplit s.data).filter (fun t => t ≠ [])

/-- Idempotency key of the create-customer call, as a function of the
millisecond timestamp and of the random base36 suffix:
`vapi-customer-(Date.now())-(random suffix)`. -/
def customerIdemKey (now : Nat) (rand : String) : String :=
  "vapi-customer-" ++ natToString now ++ "-" ++ rand

/-- Idempotency key of the create-booking call. -/
def bookingIdemKey (now : Nat) (rand : String) : String :=
  "vapi-booking-" ++ natToString now ++ "-" ++ rand

/-- Substring test: needle matches at the head of the haystack. -/
def subAt : List Char → List Char → Bool
  | [], _ => true
  | _ :: _, [] => false
  | a :: as, b :: bs => a == b && subAt as bs

/-- Substring test anywhere in the haystack. -/
def hasSub (needle : List Char) : List Char → Bool
  | [] => subAt needle []
  | b :: bs => subAt needle (b :: bs) || hasSub needle bs

/-- String containment: sub occurs contiguously inside s. -/
def containsStr (s sub : String) : Bool :=
  hasSub sub.data s.data

/-! ### Concrete fixtures used by scenario theorems, witnesses and
counterexamples -/

/-- The inbound request of the C6 scenario from the spec. -/
def reqC6 : Request :=
  ⟨some "schedule_square_appointment", some "abc",
    some ⟨some "Jane Doe", some "+15551234567", some "2025-01-01T10:00:00Z", some "Haircut"⟩⟩

/-- Provider behavior of the C6 scenario: empty search, created
customer CUST1, created booking BOOK1. -/
def provC6 : ProviderResponses :=
  ⟨⟨true, 200, none, some []⟩, ⟨true, 200, none, some (some "CUST1")⟩,
    ⟨true, 200, none, some (some "BOOK1")⟩⟩

/-- A request whose toolCallId is present but empty (C1
counterexample). -/
def reqEmptyTid : Request :=
  ⟨none, some "", none⟩

/-- Provider behavior for the C2 counterexample: the booking call fails
with a non-success status and an error detail containing a raw line
break. -/
def provNewline : ProviderResponses :=
  ⟨⟨true, 200, none, some [some "CUST1"]⟩, ⟨true, 200, none, none⟩,
    ⟨false, 400, some ["line1\nline2"], none⟩⟩

/-- Provider behavior for the C2 witness: variant-1 orchestration fails
at the search (HTTP 503); variant-2 orchestration fails at the
secure-customer check. -/
def provFailBoth : ProviderResponses :=
  ⟨⟨false, 503, none, none⟩, ⟨true, 200, none, none⟩,
    ⟨true, 200, none, some (some "B")⟩⟩

/-- Provider behavior for the C4 witness: search succeeds with no match,
create succeeds but carries no customer object. -/
def provNoCustomer : ProviderResponses :=
  ⟨⟨true, 200, none, some []⟩, ⟨true, 200, none, none⟩,
    ⟨true, 200, none, some (some "BOOK1")⟩⟩

/-- Provider behavior for the C7 counterexample: the search has a
non-success status yet carries a customer id, and the booking call
succeeds, so variant 2 completes the request successfully. -/
def provC7 : ProviderResponses :=
  ⟨⟨false, 500, none, some [some "CUSTX"]⟩, ⟨true, 200, none, none⟩,
    ⟨true, 200, none, some (some "BOOKX")⟩⟩

/-- Booking response with a non-success status and a present but empty
errors array (C5 counterexample). -/
def bookingEmptyErrors : BookingResp :=
  ⟨false, 500, some [], none⟩

/-! ### The faithful formalizations of the corrected claims as
stated, each refuted below by a counterexample theorem -/

/-- Claim C1 as stated: on every path the body is a one-entry results
array whose toolCallId equals the inbound one, with the sentinel used
exactly when the inbound toolCallId is absent. -/
def claimC1Statement : Prop :=
  ∀ (req : Request) (token : Option String) (p : ProviderResponses),
    ∃ e : ResultEntry,
      (handleV1 req token p).body = RespBody.jsonResults [e]
      ∧ (e.toolCallId = req.toolCallId
          ∨ (req.toolCallId = none ∧ e.toolCallId = some "test-error"))

/-- Claim C2 as stated: every error caught at the top-level boundary of
either express variant yields a 200 response with a single result entry
whose text carries no raw line break. -/
def claimC2Statement : Prop :=
  ∀ (req : Request) (token : Option String) (p : ProviderResponses) (m : String),
    validationFails req token = false →
    ((orchestrateV1 p).2 = Except.error m →
      (handleV1 req token p).status = 200
      ∧ ∃ e, (handleV1 req token p).body = RespBody.jsonResults [e] ∧ noCRLF e.result = true)
    ∧ ((orchestrateV2 p).2 = Except.error m →
      (handleV2 req token p).status = 200
      ∧ ∃ e, (handleV2 req token p).body = RespBody.jsonResults [e] ∧ noCRLF e.result = true)

/-- Claim C5 as stated: on a non-success status the booking step fails
with the first structured error detail, or else with a message containing
the decimal status code; on a success status without booking object it
fails with the first error detail, or else with the fixed unavailable
message. -/
def claimC5Statement : Prop :=
  ∀ b : BookingResp,
    (b.ok = false →
      ((∃ d t, b.errors = some (d :: t) ∧ createSquareBooking b = Except.error d)
        ∨ (∃ m, createSquareBooking b = Except.error m
            ∧ containsStr m (natToString b.status) = true)))
    ∧ (b.ok = true → b.booking = none →
      ((∃ d t, b.errors = some (d :: t) ∧ createSquareBooking b = Except.error d)
        ∨ createSquareBooking b = Except.error unavailableMsg))

/-- Claim C7 as stated, specialized to its refuted component: in each
variant a non-success search status makes the request fail. For the
variant-1 helpers this holds (see the amended theorem); for variant 2 it
is refuted, since searchCustomer there never inspects the status. -/
def claimC7Statement : Prop :=
  (∀ s : SearchResp, s.ok = false → ∃ m, searchCustomer s = Except.error m)
  ∧ (∀ c : CreateCustomerResp, c.ok = false → ∃ m, createCustomer c = Except.error m)
  ∧ (∀ b : BookingResp, b.ok = false → ∃ m, createSquareBooking b = Except.error m)
  ∧ (∀ p : ProviderResponses, p.search.ok = false → ∃ m, (orchestrateV2 p).2 = Except.error m)

/-- Claim C8 as stated: the name is split on whitespace into tokens, the
first token is the given name, the remaining tokens joined by single
spaces are the family name, and a single token defaults the family name
to Client. -/
def claimC8Statement : Prop :=
  ∀ s : String,
    (customerGivenName s).data = (specTokens s).headD []
    ∧ (customerFamilyName s).data =
        (if (specTokens s).length = 1 then ("Client" : String).data
          else joinSpace ((specTokens s).drop 1))

/-- Claim C9 as stated: any two sequentially generated keys are never
equal. In the embedding a generation is a function of the sampled
millisecond timestamp and random suffix, and nothing prevents two
generations from sampling the same pair. -/
def claimC9Statement : Prop :=
  ∀ (t1 : Nat) (r1 : String) (t2 : Nat) (r2 : String),
    customerIdemKey t1 r1 ≠ customerIdemKey t2 r2

/-! ## Helper lemmas -/

theorem sentinel_cases (t : Option String) :
    some (jsOrSentinel t) = t ∨ (jsFalsy t = true ∧ jsOrSentinel t = "test-error") := by
  cases t with
  | none => exact Or.inr ⟨rfl, rfl⟩
  | some s =>
    by_cases hs : (s == "") = true
    · exact Or.inr ⟨hs, by simp [jsOrSentinel, hs]⟩
    · left
      simp only [jsOrSentinel, hs, if_false]
      simp only [beq_iff_eq] at hs
      simp [hs]

theorem collapseCRLFAux_all (b : Bool) (l : List Char) :
    ((collapseCRLFAux b l).all (fun c => !(c == '\r') && !(c == '\n'))) = true := by
  induction l generalizing b with
  | nil => rfl
  | cons c cs ih =>
    by_cases hc : (c == '\r' || c == '\n') = true
    · cases b <;> simp [collapseCRLFAux, hc, ih]
    · simp only [Bool.or_eq_true, not_or] at hc
      simp only [collapseCRLFAux, Bool.or_eq_true]
      rw [if_neg (by tauto)]
      simp only [List.all_cons, Bool.and_eq_true, ih, and_true]
      simp only [Bool.not_eq_true] at hc ⊢
      simp [Bool.eq_false_iff.mpr, hc.1, hc.2]

theorem sanitizeMessage_noCRLF (m : String) : noCRLF (sanitizeMessage m) = true := by
  by_cases hm : (m == "") = true
  · simp [sanitizeMessage, hm]
    decide
  · simp only [sanitizeMessage, hm, if_false]
    exact collapseCRLFAux_all false m.data

/-! ## Claim C1 -/

/-- C1, counterexample: with the inbound toolCallId present but empty
and a failing validation, the produced entry carries the sentinel, so it
neither equals the inbound value nor falls under the absent-toolCallId
clause. -/
theorem c1_counterexample : ¬ claimC1Statement := by
  intro h
  obtain ⟨e, hb, hd⟩ := h reqEmptyTid none provC6
  have hb' : (handleV1 reqEmptyTid none provC6).body =
      RespBody.jsonResults [⟨some "test-error", configErrorMsg⟩] := by decide
  rw [hb'] at hb
  have he : e = ⟨some "test-error", configErrorMsg⟩ := by
    cases hb
    rfl
  subst he
  rcases hd with hd | ⟨hd, -⟩
  · exact absurd hd (by decide)
  · exact absurd hd (by decide)

/-- C1, amended: for every request handled by variant 1, and for every
POST request handled by the direct handler, the response body is a
results array with exactly one entry, and that entry echoes the inbound
toolCallId, except that on the validation-rejection path a JS-falsy
(absent or empty) inbound toolCallId is replaced by the sentinel
test-error. -/
theorem c1_results_toolCallId_amended (req : Request) (token : Option String)
    (p : ProviderResponses) :
    (∃ e : ResultEntry,
      (handleV1 req token p).body = RespBody.jsonResults [e]
      ∧ (e.toolCallId = req.toolCallId
          ∨ (jsFalsy req.toolCallId = true ∧ e.toolCallId = some "test-error")))
    ∧ (∃ e : ResultEntry,
      (handlePart000 "POST" req token p).body = RespBody.jsonResults [e]
      ∧ (e.toolCallId = req.toolCallId
          ∨ (jsFalsy req.toolCallId = true ∧ e.toolCallId = some "test-error"))) := by
  have htid : ∀ msg : String,
      (ResultEntry.mk (some (jsOrSentinel req.toolCallId)) msg).toolCallId = req.toolCallId
      ∨ (jsFalsy req.toolCallId = true
          ∧ (ResultEntry.mk (some (jsOrSentinel req.toolCallId)) msg).toolCallId
              = some "test-error") := by
    intro msg
    rcases sentinel_cases req.toolCallId with h | ⟨h1, h2⟩
    · exact Or.inl h
    · exact Or.inr ⟨h1, by simp [h2]⟩
  constructor
  · cases hv : validationFails req token with
    | true =>
      exact ⟨⟨some (jsOrSentinel req.toolCallId), configErrorMsg⟩,
        by simp [handleV1, hv], htid configErrorMsg⟩
    | false =>
      rcases ho : orchestrateV1 p with ⟨calls, r⟩
      cases r with
      | error m =>
        exact ⟨⟨req.toolCallId, bookingFailMsg m⟩, by simp [handleV1, hv, ho], Or.inl rfl⟩
      | ok bid =>
        exact ⟨⟨req.toolCallId, bookingSuccessMsg bid⟩, by simp [handleV1, hv, ho], Or.inl rfl⟩
  · cases hv : validationFails req token with
    | true =>
      exact ⟨⟨some (jsOrSentinel req.toolCallId), configErrorMsg⟩,
        by simp [handlePart000, hv], htid configErrorMsg⟩
    | false =>
      rcases ho : orchestrateP0 (reqCustomerPhone req) p with ⟨calls, r⟩
      cases r with
      | error m =>
        exact ⟨⟨req.toolCallId, bookingFailMsg m⟩,
          by simp [handlePart000, hv, ho], Or.inl rfl⟩
      | ok bid =>
        exact ⟨⟨req.toolCallId, bookingSuccessMsg bid⟩,
          by simp [handlePart000, hv, ho], Or.inl rfl⟩

/-! ## Claim C3 -/

/-- C3: whenever the functionName is not the recognized tag, or the
customer name is empty or absent, or the service name is empty or
absent, or the bearer token is unset, variant 1, variant 2 and the
direct handler (on a POST) each return the fixed configuration-error
message in a one-entry envelope with HTTP status 200 and perform no
upstream call. -/
theorem c3_validation_rejects_locally (req : Request) (token : Option String)
    (p : ProviderResponses)
    (h : req.functionName ≠ some "schedule_square_appointment"
      ∨ jsFalsy (reqCustomerName req) = true
      ∨ jsFalsy (reqServiceName req) = true
      ∨ token = none) :
    handleV1 req token p =
      ⟨200, RespBody.jsonResults [⟨some (jsOrSentinel req.toolCallId), configErrorMsg⟩], []⟩
    ∧ handleV2 req token p =
      ⟨200, RespBody.jsonResults [⟨some (jsOrSentinel req.toolCallId), configErrorMsg⟩], []⟩
    ∧ handlePart000 "POST" req token p =
      ⟨200, RespBody.jsonResults [⟨some (jsOrSentinel req.toolCallId), configErrorMsg⟩], []⟩ := by
  have hv : validationFails req token = true := by
    rcases h with h | h | h | h
    · simp [validationFails, bne_iff_ne, h]
    · simp [validationFails, h]
    · simp [validationFails, h]
    · subst h
      simp [validationFails, jsFalsy]
  refine ⟨?_, ?_, ?_⟩
  · simp [handleV1, hv]
  · simp [handleV2, hv]
  · simp [handlePart000, hv]

/-- C3, witness. -/
theorem c3_validation_witness :
    handleV1 reqEmptyTid none provC6 =
      ⟨200, RespBody.jsonResults [⟨some "test-error", configErrorMsg⟩], []⟩ :=
  (c3_validation_rejects_locally reqEmptyTid none provC6 (Or.inl (by decide))).1

/-! ## Claim C6 -/

/-- C6: on the spec scenario (search finds no match, creation returns
customer CUST1, booking returns BOOK1) variant 1 and the direct handler
answer 200 with a single entry echoing toolCallId abc and a result
string containing BOOK1. -/
theorem c6_scenario_success :
    handleV1 reqC6 (some "TOKEN") provC6 =
      ⟨200, RespBody.jsonResults [⟨some "abc", "Booking success. ID: BOOK1."⟩],
        [UpstreamCall.search, UpstreamCall.createCust, UpstreamCall.createBooking]⟩
    ∧ handlePart000 "POST" reqC6 (some part000Token) provC6 =
      ⟨200, RespBody.jsonResults [⟨some "abc", "Booking success. ID: BOOK1."⟩],
        [UpstreamCall.search, UpstreamCall.createCust, UpstreamCall.createBooking]⟩
    ∧ containsStr "Booking success. ID: BOOK1." "BOOK1" = true := by
  decide

/-! ## Claim C10 -/

/-- C10: validation never inspects customer_phone, so a request with the
phone absent but a recognized functionName, nonempty name and service,
and a nonempty token passes validation; in the direct handler the
normalization step then dereferences the absent phone, the TypeError is
caught at the top-level boundary, and the response is the 200-status
failure envelope with no upstream call made. -/
theorem c10_phone_absent_caught (tid st : Option String) (name service tok : String)
    (p : ProviderResponses) (hn : name ≠ "") (hs : service ≠ "") (ht : tok ≠ "") :
    validationFails
      ⟨some "schedule_square_appointment", tid, some ⟨some name, none, st, some service⟩⟩
      (some tok) = false
    ∧ handlePart000 "POST"
        ⟨some "schedule_square_appointment", tid, some ⟨some name, none, st, some service⟩⟩
        (some tok) p =
      ⟨200, RespBody.jsonResults
        [⟨tid, "Booking failed. Failure Detail: Cannot read properties of undefined (reading \x27replace\x27)"⟩],
        []⟩ := by
  have hv : validationFails
      ⟨some "schedule_square_appointment", tid, some ⟨some name, none, st, some service⟩⟩
      (some tok) = false := by
    simp [validationFails, reqCustomerName, reqServiceName, jsFalsy, hn, hs, ht]
  have hmsg : bookingFailMsg typeErrorReplaceMsg =
      "Booking failed. Failure Detail: Cannot read properties of undefined (reading \x27replace\x27)" := by
    decide
  refine ⟨hv, ?_⟩
  rw [← hmsg]
  simp [handlePart000, hv, orchestrateP0, resolveCustomerP0, reqCustomerPhone]

/-! ## Claim C2 -/

theorem hasSub_append (pre mid post : List Char) :
    hasSub mid (pre ++ (mid ++ post)) = true := by
  induction pre with
  | nil =>
    cases mid with
    | nil => cases post <;> rfl
    | cons a as =>
      have hsa : ∀ (m post : List Char), subAt m (m ++ post) = true := by
        intro m
        induction m with
        | nil => intro post; rfl
        | cons x xs ihx => intro post; simp [subAt, ihx]
      have hthis : subAt (a :: as) ((a :: as) ++ post) = true := hsa _ _
      simp only [List.cons_append] at hthis
      simp [hasSub, hthis]
  | cons c cs ih =>
    simp [hasSub, ih]

theorem containsStr_mid (a x b : String) : containsStr (a ++ x ++ b) x = true := by
  simp only [containsStr, String.data_append, List.append_assoc]
  exact hasSub_append a.data x.data b.data

/-- C2, counterexample: variant 2 (the catch at src/api/index.js lines
232-242) embeds the caught message without collapsing line breaks, so a
provider error detail containing a raw newline reaches the outbound
result string unchanged. -/
theorem c2_counterexample : ¬ claimC2Statement := by
  intro h
  obtain ⟨-, e, hb, hcr⟩ :=
    (h reqC6 (some "TOKEN") provNewline "line1\nline2" (by decide)).2 (by decide)
  have hb' : (handleV2 reqC6 (some "TOKEN") provNewline).body =
      RespBody.jsonResults [⟨some "abc", v2FailMsg "line1\nline2"⟩] := by decide
  rw [hb'] at hb
  have he : e = ⟨some "abc", v2FailMsg "line1\nline2"⟩ := by
    cases hb
    rfl
  subst he
  exact absurd hcr (by decide)

/-- C2, amended: every error raised after validation is caught at the
single top-level boundary and converted into the 200-status failure
envelope; in variant 1 the embedded detail is the sanitized message, in
which every run of line breaks has been collapsed, so the result carries
no raw line break; variant 2 embeds the raw message without collapsing.
No path yields a non-200 status for a caught failure. -/
theorem c2_catch_sanitization_amended (req : Request) (token : Option String)
    (p : ProviderResponses) (m m2 : String)
    (hv : validationFails req token = false)
    (h1 : (orchestrateV1 p).2 = Except.error m)
    (h2 : (orchestrateV2 p).2 = Except.error m2) :
    handleV1 req token p =
      ⟨200, RespBody.jsonResults [⟨req.toolCallId, bookingFailMsg m⟩], (orchestrateV1 p).1⟩
    ∧ noCRLF (bookingFailMsg m) = true
    ∧ handleV2 req token p =
      ⟨200, RespBody.jsonResults [⟨req.toolCallId, v2FailMsg m2⟩], (orchestrateV2 p).1⟩ := by
  refine ⟨?_, ?_, ?_⟩
  · rcases ho : orchestrateV1 p with ⟨calls, r⟩
    rw [ho] at h1
    simp only at h1
    subst h1
    simp [handleV1, hv, ho]
  · simp only [bookingFailMsg, noCRLF, String.data_append, List.all_append,
      Bool.and_eq_true]
    refine ⟨by decide, ?_⟩
    simpa [noCRLF] using sanitizeMessage_noCRLF m
  · rcases ho : orchestrateV2 p with ⟨calls, r⟩
    rw [ho] at h2
    simp only at h2
    subst h2
    simp [handleV2, hv, ho]

/-- C2, witness. -/
theorem c2_catch_witness :
    noCRLF (bookingFailMsg "Search Customer HTTP Error 503 from Square.") = true :=
  (c2_catch_sanitization_amended reqC6 (some "TOKEN") provFailBoth
    "Search Customer HTTP Error 503 from Square."
    "Failed to secure customer ID for booking."
    (by decide) (by decide) (by decide)).2.1

/-! ## Claim C4 -/

/-- C4: customer resolution is find-or-create with at most two upstream
calls: the search call always comes first, the create-customer call
happens exactly when the search completes with a falsy (absent or empty)
identifier, and when the create call also completes with a falsy
identifier the request fails with the secure-customer error after
exactly the two resolution calls, never reaching the booking call. -/
theorem c4_find_or_create (req : Request) (token : Option String)
    (p q : ProviderResponses) (cid cid2 : Option String)
    (hs : searchCustomer q.search = Except.ok cid)
    (hfs : jsFalsy cid = true)
    (hc : createCustomer q.create = Except.ok cid2)
    (hfc : jsFalsy cid2 = true)
    (hv : validationFails req token = false) :
    (resolveCustomer p).1 =
      UpstreamCall.search ::
        (if createAttempted p then [UpstreamCall.createCust] else [])
    ∧ (resolveCustomer p).1.length ≤ 2
    ∧ handleV1 req token q =
      ⟨200, RespBody.jsonResults
        [⟨req.toolCallId,
          "Booking failed. Failure Detail: Failed to secure customer ID for booking."⟩],
        [UpstreamCall.search, UpstreamCall.createCust]⟩ := by
  have hstruct : (resolveCustomer p).1 =
      UpstreamCall.search ::
        (if createAttempted p then [UpstreamCall.createCust] else []) := by
    rcases h : searchCustomer p.search with m | c
    · simp [resolveCustomer, createAttempted, h]
    · by_cases hf : jsFalsy c = true
      · rcases hcc : createCustomer p.create with m2 | c2
        · simp [resolveCustomer, createAttempted, h, hf, hcc]
        · by_cases hf2 : jsFalsy c2 = true <;>
            simp [resolveCustomer, createAttempted, h, hf, hcc, hf2]
      · simp [resolveCustomer, createAttempted, h, hf]
  refine ⟨hstruct, ?_, ?_⟩
  · rw [hstruct]
    cases createAttempted p <;> simp
  · have hres : resolveCustomer q =
        ([UpstreamCall.search, UpstreamCall.createCust],
          Except.error "Failed to secure customer ID for booking.") := by
      simp [resolveCustomer, hs, hfs, hc, hfc]
    have horch : orchestrateV1 q =
        ([UpstreamCall.search, UpstreamCall.createCust],
          Except.error "Failed to secure customer ID for booking.") := by
      simp [orchestrateV1, hres]
    have hmsg : bookingFailMsg "Failed to secure customer ID for booking." =
        "Booking failed. Failure Detail: Failed to secure customer ID for booking." := by
      decide
    rw [← hmsg]
    simp [handleV1, hv, horch]

/-- C4, witness. -/
theorem c4_find_or_create_witness :
    handleV1 reqC6 (some "TOKEN") provNoCustomer =
      ⟨200, RespBody.jsonResults
        [⟨some "abc",
          "Booking failed. Failure Detail: Failed to secure customer ID for booking."⟩],
        [UpstreamCall.search, UpstreamCall.createCust]⟩ :=
  (c4_find_or_create reqC6 (some "TOKEN") provNoCustomer provNoCustomer none none
    (by decide) rfl (by decide) rfl (by decide)).2.2

/-! ## Claim C5 -/

/-- C5, counterexample: a non-success booking response whose errors
field is a present but empty array fails with the runtime TypeError
message, which is neither a provider error detail nor a message
containing the HTTP status code. -/
theorem c5_counterexample : ¬ claimC5Statement := by
  intro h
  rcases (h bookingEmptyErrors).1 rfl with ⟨d, t, hdt, -⟩ | ⟨m, hm, hcon⟩
  · simp [bookingEmptyErrors] at hdt
  · have hm' : createSquareBooking bookingEmptyErrors =
        Except.error typeErrorDetailMsg := by decide
    rw [hm'] at hm
    have : m = typeErrorDetailMsg := by
      cases hm
      rfl
    subst this
    exact absurd hcon (by decide)

/-- C5, amended: the booking step distinguishes its failure shapes as
follows. Non-success status: the first error detail when the errors
array is present and nonempty, the runtime TypeError message when it is
present but empty, else the generic message carrying the decimal status
code. Success status without booking object: never success, with the
first error detail when present and nonempty, the TypeError message when
present but empty, else the fixed unavailable message, which differs
from every generic status message. -/
theorem c5_booking_failure_shapes_amended (b1 b2 b3 b4 b5 b6 : BookingResp)
    (d3 d4 : String) (t3 t4 : List String)
    (h1 : b1.ok = false) (h1e : b1.errors = none)
    (h2 : b2.ok = true) (h2b : b2.booking = none) (h2e : b2.errors = none)
    (h3 : b3.ok = false) (h3e : b3.errors = some (d3 :: t3))
    (h4 : b4.ok = true) (h4b : b4.booking = none) (h4e : b4.errors = some (d4 :: t4))
    (h5 : b5.ok = false) (h5e : b5.errors = some [])
    (h6 : b6.ok = true) (h6b : b6.booking = none) (h6e : b6.errors = some []) :
    createSquareBooking b1 =
      Except.error ("Booking HTTP Error " ++ natToString b1.status ++ " from Square.")
    ∧ containsStr ("Booking HTTP Error " ++ natToString b1.status ++ " from Square.")
        (natToString b1.status) = true
    ∧ createSquareBooking b2 = Except.error unavailableMsg
    ∧ ("Booking HTTP Error " ++ natToString b1.status ++ " from Square.") ≠ unavailableMsg
    ∧ createSquareBooking b3 = Except.error d3
    ∧ createSquareBooking b4 = Except.error d4
    ∧ createSquareBooking b5 = Except.error typeErrorDetailMsg
    ∧ createSquareBooking b6 = Except.error typeErrorDetailMsg := by
  refine ⟨?_, ?_, ?_, ?_, ?_, ?_, ?_, ?_⟩
  · simp [createSquareBooking, h1, h1e, errorsBranch]
  · exact containsStr_mid "Booking HTTP Error " (natToString b1.status) " from Square."
  · simp [createSquareBooking, h2, h2b, h2e, errorsBranch]
  · intro heq
    have h : ("Booking HTTP Error " ++ natToString b1.status ++ " from Square.").data.headD ' '
        = unavailableMsg.data.headD ' ' := congrArg (fun s => s.data.headD ' ') heq
    have hL : ("Booking HTTP Error " ++ natToString b1.status ++ " from Square.").data.headD ' '
        = 'B' := by
      rw [String.data_append, String.data_append]
      rfl
    have hR : unavailableMsg.data.headD ' ' = 'S' := by decide
    rw [hL, hR] at h
    exact absurd h (by decide)
  · simp [createSquareBooking, h3, h3e, errorsBranch]
  · simp [createSquareBooking, h4, h4b, h4e, errorsBranch]
  · simp [createSquareBooking, h5, h5e, errorsBranch]
  · simp [createSquareBooking, h6, h6b, h6e, errorsBranch]

/-- C5, witness. -/
theorem c5_booking_failure_witness :
    createSquareBooking ⟨false, 503, none, none⟩ =
      Except.error ("Booking HTTP Error " ++ natToString 503 ++ " from Square.") :=
  (c5_booking_failure_shapes_amended
    ⟨false, 503, none, none⟩ ⟨true, 200, none, none⟩
    ⟨false, 500, some ["detail A"], none⟩ ⟨true, 200, some ["detail B"], none⟩
    ⟨false, 500, some [], none⟩ ⟨true, 200, some [], none⟩
    "detail A" "detail B" [] []
    rfl rfl rfl rfl rfl rfl rfl rfl rfl rfl rfl rfl rfl rfl rfl).1

/-! ## Claim C7 -/

/-- C7, counterexample: in variant 2 a non-success search status is
silently treated as data: here the search response has status 500 yet
carries a customer id, and the request completes successfully, so a
non-success status on one of the three calls does not make the request
fail. -/
theorem c7_counterexample : ¬ claimC7Statement := by
  intro h
  obtain ⟨m, hm⟩ := h.2.2.2 provC7 rfl
  have hok : (orchestrateV2 provC7).2 = Except.ok (some "BOOKX") := by decide
  rw [hok] at hm
  exact Except.noConfusion hm

/-- C7, amended: in variant 1 and the direct handler each of the three
calls fails on a non-success status, with the first error detail when
the errors array is present (the TypeError message when it is empty),
else a fallback message carrying the decimal status code; in variant 2
only the create-booking call checks the status, while searchCustomer and
createCustomer ignore it and return a plain result. -/
theorem c7_upstream_status_amended (s : SearchResp) (c : CreateCustomerResp)
    (b : BookingResp) (hs : s.ok = false) (hc : c.ok = false) (hb : b.ok = false) :
    searchCustomer s =
      Except.error (errorsBranch s.errors
        ("Search Customer HTTP Error " ++ natToString s.status ++ " from Square."))
    ∧ createCustomer c =
      Except.error (errorsBranch c.errors
        ("Create Customer HTTP Error " ++ natToString c.status ++ " from Square."))
    ∧ createSquareBooking b =
      Except.error (errorsBranch b.errors
        ("Booking HTTP Error " ++ natToString b.status ++ " from Square."))
    ∧ createSquareBookingV2 b =
      Except.error (errorsBranch b.errors
        ("HTTP Error " ++ natToString b.status ++ " from Square."))
    ∧ containsStr ("Search Customer HTTP Error " ++ natToString s.status ++ " from Square.")
        (natToString s.status) = true
    ∧ (∃ v, searchCustomerV2 s = Except.ok v)
    ∧ (∃ v, createCustomerV2 c = Except.ok v) := by
  refine ⟨?_, ?_, ?_, ?_, ?_, ?_, ?_⟩
  · simp [searchCustomer, hs]
  · simp [createCustomer, hc]
  · simp [createSquareBooking, hb]
  · simp [createSquareBookingV2, hb]
  · exact containsStr_mid "Search Customer HTTP Error " (natToString s.status) " from Square."
  · rcases hsc : s.customers with _ | (_ | ⟨x, xs⟩)
    · exact ⟨none, by simp [searchCustomerV2, hsc]⟩
    · exact ⟨none, by simp [searchCustomerV2, hsc]⟩
    · exact ⟨x, by simp [searchCustomerV2, hsc]⟩
  · exact ⟨c.customer.join, rfl⟩

/-- C7, witness. -/
theorem c7_upstream_status_witness :
    searchCustomer ⟨false, 503, none, none⟩ =
      Except.error (errorsBranch none
        ("Search Customer HTTP Error " ++ natToString 503 ++ " from Square.")) :=
  (c7_upstream_status_amended ⟨false, 503, none, none⟩
    ⟨false, 500, some ["bad token"], none⟩ ⟨false, 404, none, none⟩ rfl rfl rfl).1

/-- C10, witness. -/
theorem c10_phone_absent_witness :
    handlePart000 "POST"
        ⟨some "schedule_square_appointment", some "abc",
          some ⟨some "Jane", none, some "2025-01-01T10:00:00Z", some "Haircut"⟩⟩
        (some part000Token) provC6 =
      ⟨200, RespBody.jsonResults
        [⟨some "abc", "Booking failed. Failure Detail: Cannot read properties of undefined (reading \x27replace\x27)"⟩],
        []⟩ :=
  (c10_phone_absent_caught (some "abc") (some "2025-01-01T10:00:00Z") "Jane" "Haircut"
    part000Token provC6 (by decide) (by decide) (by decide)).2

/-! ## Claim C8 -/

theorem jsSplitSpace_ne_nil (l : List Char) : jsSplitSpace l ≠ [] := by
  cases l with
  | nil => simp [jsSplitSpace]
  | cons c cs =>
    by_cases hc : (c == ' ') = true
    · simp [jsSplitSpace, hc]
    · rcases h : jsSplitSpace cs with _ | ⟨t, ts⟩ <;> simp [jsSplitSpace, hc, h]

theorem jsSplitSpace_headD (l : List Char) :
    (jsSplitSpace l).headD [] = l.takeWhile (fun c => !(c == ' ')) := by
  induction l with
  | nil => rfl
  | cons c cs ih =>
    by_cases hc : (c == ' ') = true
    · simp [jsSplitSpace, hc, List.takeWhile_cons]
    · rcases h : jsSplitSpace cs with _ | ⟨t, ts⟩
      · exact absurd h (jsSplitSpace_ne_nil cs)
      · rw [h] at ih
        simp only [List.headD_cons] at ih
        simp [jsSplitSpace, hc, h, List.takeWhile_cons, ih]

theorem joinSpace_jsSplitSpace (l : List Char) : joinSpace (jsSplitSpace l) = l := by
  induction l with
  | nil => rfl
  | cons c cs ih =>
    by_cases hc : (c == ' ') = true
    · have hceq : c = ' ' := by simpa using hc
      subst hceq
      rcases h : jsSplitSpace cs with _ | ⟨t, ts⟩
      · exact absurd h (jsSplitSpace_ne_nil cs)
      · rw [h] at ih
        simp [jsSplitSpace, h, joinSpace, ih]
    · rcases h : jsSplitSpace cs with _ | ⟨t, ts⟩
      · exact absurd h (jsSplitSpace_ne_nil cs)
      · rw [h] at ih
        rcases ts with _ | ⟨u, us⟩
        · simp [jsSplitSpace, hc, h, joinSpace]
          simpa [joinSpace] using ih
        · simp [jsSplitSpace, hc, h, joinSpace]
          simpa [joinSpace] using ih

theorem jsSplitSpace_len_iff (l : List Char) : 1 < (jsSplitSpace l).length ↔ ' ' ∈ l := by
  induction l with
  | nil => simp [jsSplitSpace]
  | cons c cs ih =>
    by_cases hc : (c == ' ') = true
    · have hceq : c = ' ' := by simpa using hc
      subst hceq
      have hpos : 0 < (jsSplitSpace cs).length :=
        List.length_pos.mpr (jsSplitSpace_ne_nil cs)
      simp only [jsSplitSpace, beq_self_eq_true, if_true, List.length_cons,
        List.mem_cons, true_or, iff_true]
      omega
    · have hcne : c ≠ ' ' := by simpa using hc
      rcases h : jsSplitSpace cs with _ | ⟨t, ts⟩
      · exact absurd h (jsSplitSpace_ne_nil cs)
      · rw [h] at ih
        simp only [jsSplitSpace, hc, List.length_cons] at ih ⊢
        rw [if_neg (by simp [hc])]
        rw [h]
        simp only [List.length_cons, List.mem_cons]
        rw [iff_comm, or_iff_right hcne.symm, iff_comm]
        exact ih

/-- C8, counterexample: the name Jane(two spaces)Doe. The code splits on
the single space character and rejoins the remaining segments, yielding
the family name (space)Doe, while the stated whitespace tokenization
yields Doe. -/
theorem c8_counterexample : ¬ claimC8Statement := fun h =>
  absurd ((h "Jane  Doe").2) (by decide)

/-- C8, amended: createCustomer splits customer_name on the single space
character: the substring before the first space is the given name; when
the name contains a space, everything after the first space, taken
verbatim (it may be empty or contain further spaces), is the family
name; the family name defaults to the placeholder Client exactly when
the name contains no space at all. -/
theorem c8_name_split_amended (s : String) :
    customerGivenName s = ⟨s.data.takeWhile (fun c => !(c == ' '))⟩
    ∧ customerFamilyName s =
        (if ' ' ∈ s.data then ⟨(s.data.dropWhile (fun c => !(c == ' '))).tail⟩
          else "Client") := by
  constructor
  · exact congrArg String.mk (jsSplitSpace_headD s.data)
  · by_cases hmem : ' ' ∈ s.data
    · rw [if_pos hmem]
      have hlen : 1 < (jsSplitSpace s.data).length :=
        (jsSplitSpace_len_iff s.data).mpr hmem
      rcases hps : jsSplitSpace s.data with _ | ⟨t, ts⟩
      · exact absurd hps (jsSplitSpace_ne_nil s.data)
      rcases ts with _ | ⟨u, us⟩
      · rw [hps] at hlen
        simp at hlen
      have hj : t ++ ' ' :: joinSpace (u :: us) = s.data := by
        have hjj := joinSpace_jsSplitSpace s.data
        rw [hps] at hjj
        exact hjj
      have ht : t = s.data.takeWhile (fun c => !(c == ' ')) := by
        have hh := jsSplitSpace_headD s.data
        rw [hps] at hh
        exact hh
      have hdrop : s.data.dropWhile (fun c => !(c == ' ')) = ' ' :: joinSpace (u :: us) := by
        have htd := List.takeWhile_append_dropWhile (fun c => !(c == ' ')) s.data
        rw [← ht] at htd
        exact List.append_cancel_left (htd.trans hj.symm)
      rw [hdrop]
      simp only [customerFamilyName, hps, List.length_cons, List.tail_cons]
      rw [if_pos (by omega)]
      rfl
    · rw [if_neg hmem]
      have hlen : ¬ 1 < (jsSplitSpace s.data).length := fun hl =>
        hmem ((jsSplitSpace_len_iff s.data).mp hl)
      simp [customerFamilyName, hlen]

/-! ## Claim C9 -/

theorem mod10_char_ne_dash (n : Nat) : Char.ofNat (48 + n % 10) ≠ '-' := by
  have h10 : n % 10 < 10 := Nat.mod_lt _ (by omega)
  revert h10
  generalize n % 10 = k
  intro h10
  interval_cases k <;> decide

theorem mod10_char_val (n : Nat) : (Char.ofNat (48 + n % 10)).toNat - 48 = n % 10 := by
  have h10 : n % 10 < 10 := Nat.mod_lt _ (by omega)
  revert h10
  generalize n % 10 = k
  intro h10
  interval_cases k <;> decide

theorem digitsOf_ne_dash (n : Nat) : ∀ c ∈ digitsOf n, c ≠ '-' := by
  induction n using Nat.strong_induction_on with
  | _ n ih =>
    rw [digitsOf]
    by_cases h : n < 10
    · simp only [h, if_true, List.mem_singleton]
      intro c hc
      subst hc
      exact mod10_char_ne_dash n
    · simp only [h, if_false, List.mem_append, List.mem_singleton]
      intro c hc
      rcases hc with hc | hc
      · exact ih (n / 10) (Nat.div_lt_self (by omega) (by omega)) c hc
      · subst hc
        exact mod10_char_ne_dash n

theorem digitsOf_val (n : Nat) :
    ∀ a, digitsValFrom a (digitsOf n) = a * 10 ^ (digitsOf n).length + n := by
  induction n using Nat.strong_induction_on with
  | _ n ih =>
    intro a
    rw [digitsOf]
    by_cases h : n < 10
    · simp only [h, if_true, digitsValFrom, List.foldl_cons, List.foldl_nil,
        List.length_singleton, pow_one, mod10_char_val]
      have hmod : n % 10 = n := Nat.mod_eq_of_lt h
      omega
    · simp only [h, if_false, digitsValFrom, List.foldl_append, List.foldl_cons,
        List.foldl_nil, List.length_append, List.length_singleton, mod10_char_val]
      have ihv := ih (n / 10) (Nat.div_lt_self (by omega) (by omega)) a
      simp only [digitsValFrom] at ihv
      rw [ihv]
      have hmod : 10 * (n / 10) + n % 10 = n := Nat.div_add_mod n 10
      rw [pow_succ, ← mul_assoc]
      omega

theorem digitsOf_inj (n1 n2 : Nat) (h : digitsOf n1 = digitsOf n2) : n1 = n2 := by
  have h1 := digitsOf_val n1 0
  have h2 := digitsOf_val n2 0
  rw [h] at h1
  simp only [Nat.zero_mul, Nat.zero_add] at h1 h2
  exact h1.symm.trans h2

theorem natDigitsAux_eq_digitsOf (fuel : Nat) :
    ∀ n acc, 0 < fuel → n < 10 ^ fuel → natDigitsAux fuel n acc = digitsOf n ++ acc := by
  induction fuel with
  | zero =>
    intro n acc hf
    exact absurd hf (by omega)
  | succ fuel ih =>
    intro n acc _ hlt
    by_cases h : n < 10
    · rw [digitsOf]
      show (if n < 10 then Char.ofNat (48 + n % 10) :: acc
          else natDigitsAux fuel (n / 10) (Char.ofNat (48 + n % 10) :: acc)) =
        (if n < 10 then [Char.ofNat (48 + n % 10)]
          else digitsOf (n / 10) ++ [Char.ofNat (48 + n % 10)]) ++ acc
      rw [if_pos h, if_pos h, List.singleton_append]
    · have hf0 : 0 < fuel := by
        rcases Nat.eq_zero_or_pos fuel with hz | hp
        · subst hz
          exact absurd (show n < 10 by simpa using hlt) h
        · exact hp
      have hdiv : n / 10 < 10 ^ fuel := by
        rw [Nat.div_lt_iff_lt_mul (by omega)]
        calc n < 10 ^ (fuel + 1) := hlt
        _ = 10 ^ fuel * 10 := by rw [pow_succ]
      have hrec := ih (n / 10) (Char.ofNat (48 + n % 10) :: acc) hf0 hdiv
      rw [digitsOf]
      show (if n < 10 then Char.ofNat (48 + n % 10) :: acc
          else natDigitsAux fuel (n / 10) (Char.ofNat (48 + n % 10) :: acc)) =
        (if n < 10 then [Char.ofNat (48 + n % 10)]
          else digitsOf (n / 10) ++ [Char.ofNat (48 + n % 10)]) ++ acc
      rw [if_neg h, if_neg h, hrec, List.append_assoc, List.singleton_append]

theorem natDigits_eq_digitsOf (n : Nat) : natDigits n = digitsOf n := by
  have h1 : n < 10 ^ (n + 1) :=
    lt_of_lt_of_le (Nat.lt_pow_self (by omega) n)
      (Nat.pow_le_pow_right (by omega) (by omega))
  have := natDigitsAux_eq_digitsOf (n + 1) n [] (by omega) h1
  simpa [natDigits] using this

theorem natDigits_inj (n1 n2 : Nat) (h : natDigits n1 = natDigits n2) : n1 = n2 := by
  rw [natDigits_eq_digitsOf, natDigits_eq_digitsOf] at h
  exact digitsOf_inj n1 n2 h

theorem natDigits_ne_dash (n : Nat) : ∀ c ∈ natDigits n, c ≠ '-' := by
  rw [natDigits_eq_digitsOf]
  exact digitsOf_ne_dash n

theorem eqOfDataEq (a b : String) (h : a.data = b.data) : a = b := by
  cases a
  cases b
  exact congrArg String.mk h

theorem splitAtDash (a1 : List Char) :
    ∀ (a2 b1 b2 : List Char), '-' ∉ a1 → '-' ∉ a2 →
      a1 ++ '-' :: b1 = a2 ++ '-' :: b2 → a1 = a2 ∧ b1 = b2 := by
  induction a1 with
  | nil =>
    intro a2 b1 b2 _ h2 heq
    cases a2 with
    | nil =>
      simp only [List.nil_append, List.cons.injEq, true_and] at heq
      exact ⟨rfl, heq⟩
    | cons y ys =>
      simp only [List.nil_append, List.cons_append, List.cons.injEq] at heq
      exact absurd (heq.1.symm ▸ List.mem_cons_self y ys) (heq.1 ▸ h2)
  | cons x xs ih =>
    intro a2 b1 b2 h1 h2 heq
    cases a2 with
    | nil =>
      simp only [List.cons_append, List.nil_append, List.cons.injEq] at heq
      exact absurd (heq.1 ▸ List.mem_cons_self x xs) h1
    | cons y ys =>
      simp only [List.cons_append, List.cons.injEq] at heq
      obtain ⟨hxy, hrest⟩ := heq
      have h1' : '-' ∉ xs := fun hm => h1 (List.mem_cons_of_mem x hm)
      have h2' : '-' ∉ ys := fun hm => h2 (List.mem_cons_of_mem y hm)
      obtain ⟨ha, hb⟩ := ih ys b1 b2 h1' h2' hrest
      exact ⟨by rw [hxy, ha], hb⟩

theorem natToString_data (n : Nat) : (natToString n).data = natDigits n := rfl

theorem idemKeyEqParts (head : String) (t1 t2 : Nat) (r1 r2 : String)
    (h : head ++ natToString t1 ++ "-" ++ r1 = head ++ natToString t2 ++ "-" ++ r2) :
    t1 = t2 ∧ r1 = r2 := by
  have hd := congrArg String.data h
  simp only [String.data_append, List.append_assoc, natToString_data] at hd
  simp only [List.singleton_append] at hd
  have hmid := List.append_cancel_left hd
  have hdash1 : '-' ∉ natDigits t1 := fun hm => natDigits_ne_dash t1 '-' hm rfl
  have hdash2 : '-' ∉ natDigits t2 := fun hm => natDigits_ne_dash t2 '-' hm rfl
  obtain ⟨ha, hb⟩ := splitAtDash (natDigits t1) (natDigits t2) r1.data r2.data
    hdash1 hdash2 hmid
  exact ⟨natDigits_inj t1 t2 ha, eqOfDataEq r1 r2 hb⟩

theorem customerKey_ne_bookingKey (t1 t2 : Nat) (r1 r2 : String) :
    customerIdemKey t1 r1 ≠ bookingIdemKey t2 r2 := by
  intro h
  have hd := congrArg String.data h
  simp only [customerIdemKey, bookingIdemKey, String.data_append, List.append_assoc] at hd
  simp at hd

/-- C9, counterexample: the generated key is a function of the sampled
millisecond timestamp and random suffix alone, so two sequential
generations that sample the same pair produce equal keys; nothing in the
code rules this out. -/
theorem c9_counterexample : ¬ claimC9Statement := fun h =>
  h 0 "aaaaaa" 0 "aaaaaa" rfl

/-- C9, amended: two generated idempotency keys are never equal when
they are of different kinds (customer vs booking), and keys of the same
kind are never equal whenever the millisecond timestamps differ or the
random suffixes differ; only a generation pair agreeing on kind,
timestamp and suffix collides. -/
theorem c9_idempotency_keys_amended (t1 t2 : Nat) (r1 r2 : String)
    (h : t1 ≠ t2 ∨ r1 ≠ r2) :
    customerIdemKey t1 r1 ≠ bookingIdemKey t2 r2
    ∧ customerIdemKey t1 r1 ≠ customerIdemKey t2 r2
    ∧ bookingIdemKey t1 r1 ≠ bookingIdemKey t2 r2 := by
  refine ⟨customerKey_ne_bookingKey t1 t2 r1 r2, ?_, ?_⟩
  · intro heq
    obtain ⟨ht, hr⟩ := idemKeyEqParts "vapi-customer-" t1 t2 r1 r2 heq
    rcases h with h | h
    · exact h ht
    · exact h hr
  · intro heq
    obtain ⟨ht, hr⟩ := idemKeyEqParts "vapi-booking-" t1 t2 r1 r2 heq
    rcases h with h | h
    · exact h ht
    · exact h hr

/-- C9, witness. -/
theorem c9_idempotency_keys_witness :
    customerIdemKey 0 "aaaaaa" ≠ customerIdemKey 1 "aaaaaa" :=
  (c9_idempotency_keys_amended 0 1 "aaaaaa" "aaaaaa" (Or.inl (by decide))).2.1

end SquareWebhook
